import Mathlib

/-!
# Verification of the django-request logging pipeline

A shallow embedding of the request-logging component (`request/middleware.py`,
`request/models.py`, `request/managers.py`): the admission filter, the three
persistence strategies (immediate save, buffered batch insert, shared-cache
write with later reconciliation), the per-record IP/user redaction performed by
`Request.save`, and the query helpers `month` / `week` / `day` / `active_users`.

Python strings are modelled as Lean `String`; Python lists as Lean `List`;
the database table, the in-process buffer `settings.REQUEST_BUFFER` and the
shared cache are explicit components of a state record `St`.  A storage call
that can raise is modelled with `Except`: `.error` means a Python exception
propagating out of the modelled function.  Whether a given storage write
succeeds is an input (`ok : Bool`), since it depends on the external database.
-/

namespace DjangoRequest

/-- The configuration values from `request/settings.py` that the modelled code
reads.  Each field keeps the name the source uses. -/
structure Settings where
  REQUEST_USE_CACHE : Bool
  REQUEST_BUFFER_SIZE : Nat
  REQUEST_CACHE_PREFIX : String
  REQUEST_LOG_IP : Bool
  REQUEST_IP_DUMMY : String
  REQUEST_ANONYMOUS_IP : Bool
  REQUEST_LOG_USER : Bool
  REQUEST_VALID_METHOD_NAMES : List String
  REQUEST_ONLY_ERRORS : Bool
  REQUEST_IGNORE_AJAX : Bool
  REQUEST_IGNORE_IP : List String
  REQUEST_IGNORE_USERNAME : List String
  deriving DecidableEq

/-- The `Request` model (`request/models.py`), restricted to the fields the
claims mention: timestamp, method, path, client IP and the nullable user
reference (identified by username). -/
structure Request where
  time : Int
  method : String
  path : String
  ip : String
  user : Option String
  deriving DecidableEq

/-- The mutable world the pipeline acts on: the module-level buffer
`settings.REQUEST_BUFFER`, the shared cache (an association list keyed by the
derived cache key), the database table backing `Request.objects`, and a ghost
log `attempts` recording each batch passed to `bulk_create` (whether or not
that insert succeeded). -/
structure St where
  buffer : List Request
  cacheMap : List (String × Request)
  store : List Request
  attempts : List (List Request)
  deriving DecidableEq

/-- Python `str.split('.')`, modelled on the character list (Python splits on
every occurrence of the separator; empty pieces are kept). -/
def pySplitDot (s : String) : List String :=
  (s.toList.splitOn '.').map List.asString

/-- Python `'.'.join(parts)`. -/
def pyJoinDot (parts : List String) : String :=
  (List.intercalate ['.'] (parts.map String.toList)).asString

/-- The IP rewrite inside `Request.save` (`request/models.py` lines 150-155):
if IP logging is off the IP becomes the dummy value; otherwise, if
anonymization is on, `parts = self.ip.split('.')[0:-1]; parts.append('1');
self.ip = '.'.join(parts)`. -/
def redactIp (s : Settings) (ip : String) : String :=
  if !s.REQUEST_LOG_IP then s.REQUEST_IP_DUMMY
  else if s.REQUEST_ANONYMOUS_IP then
    pyJoinDot ((pySplitDot ip).dropLast ++ ["1"])
  else ip

/-- The record as `Request.save` (`request/models.py` lines 149-158) persists
it: the IP rewrite above, and the user reference cleared when user logging is
disabled.  (`models.Model.save` then performs the actual insert, which
`create_from_http_request` models with its `ok` flag.) -/
def save (s : Settings) (r : Request) : Request :=
  { r with
      ip := redactIp s r.ip
      user := if s.REQUEST_LOG_USER then r.user else none }

/-- Modelled from the spec: `request_cache_key` lives in `request/utils.py`,
which is not under `src/`; per the spec the key-naming convention is the
configured prefix plus a unique identifier per record. -/
def request_cache_key (s : Settings) (uid : Nat) : String :=
  s.REQUEST_CACHE_PREFIX ++ toString uid

/-- `django.core.cache.cache.set`: overwrite the value under a key. -/
def cacheSet (c : List (String × Request)) (k : String) (r : Request) :
    List (String × Request) :=
  (k, r) :: c.filter (fun p => p.1 ≠ k)

/-- `RequestManager.create_from_http_request` (`request/managers.py` lines
132-151), given the already-built record `r`.  `uid` is the unique identifier
feeding the cache key; `ok` says whether the one storage write this call may
perform (`save` or `bulk_create`) succeeds.  `.error ()` models an exception
propagating to the caller; note the buffered branch wraps its `bulk_create`
in `try/except: pass` and clears the buffer afterwards in either case, while
the immediate branch's `save` is unprotected. -/
def create_from_http_request (s : Settings) (ok : Bool) (uid : Nat)
    (commit : Bool) (st : St) (r : Request) : Except Unit St :=
  if !commit then .ok st
  else if s.REQUEST_USE_CACHE then
    .ok { st with cacheMap := cacheSet st.cacheMap (request_cache_key s uid) r }
  else if s.REQUEST_BUFFER_SIZE = 0 then
    if ok then .ok { st with store := st.store ++ [save s r] } else .error ()
  else
    let buf := st.buffer ++ [r]
    if s.REQUEST_BUFFER_SIZE < buf.length then
      .ok { st with
              buffer := []
              attempts := st.attempts ++ [buf]
              store := if ok then st.store ++ buf else st.store }
    else
      .ok { st with buffer := buf }

/-- A sequence of admitted `submit` calls: each entry carries the record, the
success of the storage write that call may perform, and the unique id for its
cache key.  Stops at the first propagated exception. -/
def submitSeq (s : Settings) : St → List (Request × Bool × Nat) → Except Unit St
  | st, [] => .ok st
  | st, (r, ok, uid) :: rest =>
    match create_from_http_request s ok uid true st r with
    | .error e => .error e
    | .ok st' => submitSeq s st' rest

/-- Whether a cache key matches the glob pattern `pat + '*'` that
`cache.keys` / `cache.delete_pattern` receive: the key starts with `pat`
(compared on the character lists, as Python compares strings). -/
def keyMatches (pat k : String) : Bool :=
  List.isPrefixOf pat.toList k.toList

/-- `RequestManager.persist_cached` (`request/managers.py` lines 153-176).
The matched keys are those starting with the pattern's prefix (the default
pattern is `REQUEST_CACHE_PREFIX + '*'`).  Django's `bulk_create` returns its
argument and performs no database work on an empty list; on a non-empty list
its success is the input `ok`.  There is no `try/except` around this
`bulk_create`: on failure the exception propagates (`.error` carrying the
state left behind) and `cache.delete_pattern` is never reached. -/
def persist_cached (s : Settings) (ok : Bool) (st : St)
    (cache_pattern : Option String) : Except St (St × List Request) :=
  if s.REQUEST_USE_CACHE then
    let pat := cache_pattern.getD s.REQUEST_CACHE_PREFIX
    let requests := (st.cacheMap.filter (fun p => keyMatches pat p.1)).map Prod.snd
    if requests.isEmpty then
      .ok ({ st with cacheMap := st.cacheMap.filter (fun p => !keyMatches pat p.1) }, [])
    else if ok then
      .ok ({ st with
               cacheMap := st.cacheMap.filter (fun p => !keyMatches pat p.1)
               attempts := st.attempts ++ [requests]
               store := st.store ++ requests }, requests)
    else
      .error { st with attempts := st.attempts ++ [requests] }
  else
    .ok (st, [])

/-- The data the middleware reads off a framework request/response pair
(`request.method`, `request.path`, `response.status_code`, `request.is_ajax()`,
`request.META.get('REMOTE_ADDR')`, and the username of the authenticated user
if any). -/
structure Exchange where
  method : String
  path : String
  status_code : Int
  is_ajax : Bool
  remote_addr : Option String
  user : Option String
  deriving DecidableEq

/-- `Request.from_http_request` (`request/models.py` lines 55-80) restricted to
the modelled fields; `now` is the creation timestamp.  The client IP comes from
`get_client_ip` (`request/utils.py`, not under `src/`), modelled from the spec
as the exchange's remote IP. -/
def from_http_request (now : Int) (ex : Exchange) : Request :=
  { time := now
    method := ex.method
    path := ex.path
    ip := ex.remote_addr.getD ""
    user := ex.user }

/-- The admission cascade of `RequestMiddleware.process_response`
(`request/middleware.py` lines 12-34), as a predicate: `true` when none of the
six early returns fires.  `excluded` models `self.exceptions.resolve` built
from `REQUEST_IGNORE_PATHS` (`request/router.py` is not under `src/`, so the
pattern matcher is kept abstract). -/
def admission (s : Settings) (excluded : String → Bool) (ex : Exchange) : Bool :=
  if !s.REQUEST_VALID_METHOD_NAMES.contains ex.method.toLower then false
  else if decide (ex.status_code < 400) && s.REQUEST_ONLY_ERRORS then false
  else if excluded ex.path then false
  else if ex.is_ajax && s.REQUEST_IGNORE_AJAX then false
  else if ex.remote_addr.any (fun a => s.REQUEST_IGNORE_IP.contains a) then false
  else if ex.user.any (fun u => s.REQUEST_IGNORE_USERNAME.contains u) then false
  else true

/-- `RequestMiddleware.process_response` (`request/middleware.py` lines 12-34):
each rejection rule returns the response untouched (state unchanged); an
admitted exchange reaches `Request.objects.create_from_http_request`. -/
def process_response (s : Settings) (excluded : String → Bool) (now : Int)
    (uid : Nat) (ok : Bool) (st : St) (ex : Exchange) : Except Unit St :=
  if !s.REQUEST_VALID_METHOD_NAMES.contains ex.method.toLower then .ok st
  else if decide (ex.status_code < 400) && s.REQUEST_ONLY_ERRORS then .ok st
  else if excluded ex.path then .ok st
  else if ex.is_ajax && s.REQUEST_IGNORE_AJAX then .ok st
  else if ex.remote_addr.any (fun a => s.REQUEST_IGNORE_IP.contains a) then .ok st
  else if ex.user.any (fun u => s.REQUEST_IGNORE_USERNAME.contains u) then .ok st
  else create_from_http_request s ok uid true st (from_http_request now ex)

/-- A calendar date as `datetime.date` is used here: year, month (1-12),
day (1-31). -/
structure PyDate where
  year : Nat
  month : Nat
  day : Nat
  deriving DecidableEq

/-- Gregorian leap-year rule (as `calendar.monthrange` applies it). -/
def isLeapYear (y : Nat) : Bool :=
  (y % 4 == 0 && y % 100 != 0) || y % 400 == 0

/-- The number of days of a month, i.e. the second component of
`calendar.monthrange(year, month)`. -/
def monthrange (y m : Nat) : Nat :=
  if m = 2 then (if isLeapYear y then 29 else 28)
  else if m = 4 ∨ m = 6 ∨ m = 9 ∨ m = 11 then 30
  else 31

/-- `date + datetime.timedelta(1)`. -/
def addOneDay (d : PyDate) : PyDate :=
  if d.day < monthrange d.year d.month then { d with day := d.day + 1 }
  else if d.month < 12 then { year := d.year, month := d.month + 1, day := 1 }
  else { year := d.year + 1, month := 1, day := 1 }

/-- `date + datetime.timedelta(days=n)`. -/
def addDays (n : Nat) (d : PyDate) : PyDate :=
  addOneDay^[n] d

/-- The `[first_day, last_day)` range `RequestQuerySet.month` filters on:
`first_day = date.replace(day=1)`,
`last_day = date.replace(day=number_days) + timedelta(1)`. -/
def monthFilterRange (d : PyDate) : PyDate × PyDate :=
  ({ d with day := 1 }, addOneDay { d with day := monthrange d.year d.month })

/-- `RequestQuerySet.month` (`request/managers.py` lines 25-46).  `parse`
models `fun t => time.strptime(t, '%Y' + month_format)[:3]` from the Python
standard library, returning `none` where `strptime` raises `ValueError`.
`.ok (some range)` models returning the filtered queryset, `.ok none` models
the bare `return` (the method yields `None`, hence no results), and
`.error ()` models an uncaught exception — the `TypeError` raised when `year`
or `month` is missing is not caught by the `except ValueError` clause. -/
def month (parse : String → Option PyDate) (year month : Option String)
    (date : Option PyDate) : Except Unit (Option (PyDate × PyDate)) :=
  match date with
  | some d => .ok (some (monthFilterRange d))
  | none =>
    match year, month with
    | some y, some m =>
      match parse (y ++ m) with
      | none => .ok none
      | some d => .ok (some (monthFilterRange d))
    | _, _ => .error ()

/-- `RequestQuerySet.week` (`request/managers.py` lines 48-62).  `parse`
models `fun t => time.strptime(t, '%Y-%w-%U')[:3]`; the range is
`[date, date + timedelta(days=7))`. -/
def week (parse : String → Option PyDate) (year week : String) :
    Except Unit (Option (PyDate × PyDate)) :=
  match parse (year ++ "-0-" ++ week) with
  | none => .ok none
  | some d => .ok (some (d, addDays 7 d))

/-- `RequestQuerySet.day` (`request/managers.py` lines 64-76).  `parse` models
`fun t => time.strptime(t, '%Y' + month_format + day_format)[:3]`.  On an
unparseable string the `ValueError` is caught and the method yields `None`.
When parsing succeeds, the source line
`datetime.datetime.date(*time.strptime(...)[:3])` calls the instance method
`datetime.date` unbound with three integers, which raises a `TypeError` that
`except ValueError` does not catch, modelled as `.error ()`; with an explicit
`date` argument that line is skipped and the day range is returned. -/
def day (parse : String → Option PyDate) (year month day : Option String)
    (date : Option PyDate) : Except Unit (Option (PyDate × PyDate)) :=
  match date with
  | some d => .ok (some (d, d))
  | none =>
    match year, month, day with
    | some y, some m, some dd =>
      match parse (y ++ m ++ dd) with
      | none => .ok none
      | some _ => .error ()
    | _, _, _ => .error ()

/-- `RequestManager.active_users` (`request/managers.py` lines 110-130) over
the list-of-records table model: filter `user__isnull=False`, then, when a
lookback is given, filter `time__gte = now - delta`, and collect the `user`
values of the remaining rows as a set (deduplicated list). -/
def active_users (db : List Request) (now : Int) (options : Option Int) :
    List (Option String) :=
  let qs : List Request := db.filter (fun r => r.user.isSome)
  let qs : List Request :=
    match options with
    | some delta => qs.filter (fun r => decide (now - delta ≤ r.time))
    | none => qs
  (qs.map (fun r => r.user)).dedup

/-! ## Helper lemmas -/

theorem submitSeq_append (s : Settings) (l1 l2 : List (Request × Bool × Nat)) (st : St) :
    submitSeq s st (l1 ++ l2) =
      match submitSeq s st l1 with
      | .error e => .error e
      | .ok st1 => submitSeq s st1 l2 := by
  induction l1 generalizing st with
  | nil => rfl
  | cons x l1 ih =>
    obtain ⟨r, ok, uid⟩ := x
    simp only [List.cons_append, submitSeq]
    cases create_from_http_request s ok uid true st r with
    | error e => rfl
    | ok st1 => exact ih st1

theorem create_buffered_no_flush (s : Settings) (ok : Bool) (uid : Nat) (st : St)
    (r : Request) (hc : s.REQUEST_USE_CACHE = false)
    (hfit : st.buffer.length + 1 ≤ s.REQUEST_BUFFER_SIZE) :
    create_from_http_request s ok uid true st r =
      .ok { st with buffer := st.buffer ++ [r] } := by
  have hsz : ¬s.REQUEST_BUFFER_SIZE = 0 := by omega
  have hlt : ¬s.REQUEST_BUFFER_SIZE < (st.buffer ++ [r]).length := by
    simp only [List.length_append, List.length_cons, List.length_nil]
    omega
  simp only [create_from_http_request, hc, hsz, hlt]
  simp

theorem create_buffered_flush (s : Settings) (ok : Bool) (uid : Nat) (st : St)
    (r : Request) (hc : s.REQUEST_USE_CACHE = false)
    (hsz : s.REQUEST_BUFFER_SIZE ≠ 0)
    (hover : s.REQUEST_BUFFER_SIZE < st.buffer.length + 1) :
    create_from_http_request s ok uid true st r =
      .ok { st with
              buffer := []
              attempts := st.attempts ++ [st.buffer ++ [r]]
              store := if ok then st.store ++ (st.buffer ++ [r]) else st.store } := by
  have hlt : s.REQUEST_BUFFER_SIZE < (st.buffer ++ [r]).length := by
    simp only [List.length_append, List.length_cons, List.length_nil]
    omega
  simp only [create_from_http_request, hc, hsz, hlt]
  simp

theorem submitSeq_no_flush (s : Settings) (hc : s.REQUEST_USE_CACHE = false)
    (l : List (Request × Bool × Nat)) (st : St)
    (h : st.buffer.length + l.length ≤ s.REQUEST_BUFFER_SIZE) :
    submitSeq s st l = .ok { st with buffer := st.buffer ++ l.map (fun x => x.1) } := by
  induction l generalizing st with
  | nil => simp [submitSeq]
  | cons x l ih =>
    obtain ⟨r, ok, uid⟩ := x
    simp only [List.length_cons] at h
    have hstep := create_buffered_no_flush s ok uid st r hc (by omega)
    have hrest := ih { st with buffer := st.buffer ++ [r] }
      (by simp only [List.length_append, List.length_cons, List.length_nil]; omega)
    simp only [submitSeq, hstep, hrest]
    simp

/-! ## Claims -/

/-- C1: Under the Buffered strategy with threshold `T` (cache off, buffer size
`T ≠ 0`), starting from an empty buffer, every sequence of `T+1` admitted
submit calls with no intervening flush ends with exactly one bulk insert
attempted, containing exactly the `T+1` submitted records in order, and an
empty buffer — whether each storage write succeeds or fails — and no submit in
the sequence raises; the cache is untouched. -/
theorem buffered_threshold_flush (s : Settings) (T : Nat)
    (hc : s.REQUEST_USE_CACHE = false) (hT : s.REQUEST_BUFFER_SIZE = T)
    (hT0 : T ≠ 0) (l : List (Request × Bool × Nat)) (hlen : l.length = T + 1)
    (st : St) (hbuf : st.buffer = []) :
    ∃ st' : St, submitSeq s st l = .ok st' ∧ st'.buffer = [] ∧
      st'.attempts = st.attempts ++ [l.map (fun x => x.1)] ∧
      st'.cacheMap = st.cacheMap := by
  rcases List.eq_nil_or_concat l with h | ⟨l1, x, rfl⟩
  · subst h; simp at hlen
  rw [List.concat_eq_append] at hlen ⊢
  obtain ⟨r, ok, uid⟩ := x
  have hl1 : l1.length = T := by
    simp only [List.length_append, List.length_cons, List.length_nil] at hlen
    omega
  rw [submitSeq_append]
  rw [submitSeq_no_flush s hc l1 st (by rw [hbuf, hl1, hT]; simp)]
  have hover : s.REQUEST_BUFFER_SIZE <
      ({ st with buffer := st.buffer ++ l1.map (fun x => x.1) } : St).buffer.length + 1 := by
    simp [hbuf, hl1, hT]
  simp only [submitSeq]
  rw [create_buffered_flush s ok uid _ r hc (by omega) hover]
  refine ⟨_, rfl, rfl, ?_, rfl⟩
  simp [hbuf]

/-- A Buffered-strategy configuration with threshold 1, used to instantiate
the theorems on concrete inputs. -/
def exSettingsBuffered : Settings :=
  { REQUEST_USE_CACHE := false
    REQUEST_BUFFER_SIZE := 1
    REQUEST_CACHE_PREFIX := "request:"
    REQUEST_LOG_IP := true
    REQUEST_IP_DUMMY := "1.1.1.1"
    REQUEST_ANONYMOUS_IP := false
    REQUEST_LOG_USER := true
    REQUEST_VALID_METHOD_NAMES := ["get", "post"]
    REQUEST_ONLY_ERRORS := false
    REQUEST_IGNORE_AJAX := false
    REQUEST_IGNORE_IP := []
    REQUEST_IGNORE_USERNAME := [] }

/-- A concrete admitted record. -/
def exRecA : Request :=
  { time := 1, method := "GET", path := "/a", ip := "203.0.113.42", user := some "alice" }

/-- A second concrete admitted record. -/
def exRecB : Request :=
  { time := 2, method := "GET", path := "/b", ip := "198.51.100.7", user := none }

/-- The empty starting state: empty buffer, empty cache, empty table. -/
def exStEmpty : St := { buffer := [], cacheMap := [], store := [], attempts := [] }

/-- Witness for C1 at threshold `T = 1`: two concrete submits (the second one
with a failing storage write) drain the buffer with a single attempted batch
holding both records. -/
theorem buffered_threshold_flush_witness :
    ∃ st' : St,
      submitSeq exSettingsBuffered exStEmpty [(exRecA, true, 0), (exRecB, false, 1)] = .ok st' ∧
      st'.buffer = [] ∧
      st'.attempts = exStEmpty.attempts ++
        [([(exRecA, true, 0), (exRecB, false, 1)].map (fun x => x.1))] ∧
      st'.cacheMap = exStEmpty.cacheMap :=
  buffered_threshold_flush exSettingsBuffered 1 rfl rfl (by decide)
    [(exRecA, true, 0), (exRecB, false, 1)] rfl exStEmpty rfl

/-- A Cached-strategy configuration (cache on; the buffer size is irrelevant
there and deliberately non-zero). -/
def exSettingsCache : Settings :=
  { exSettingsBuffered with REQUEST_USE_CACHE := true, REQUEST_BUFFER_SIZE := 3 }

/-- An Immediate-strategy configuration (cache off, buffer size 0). -/
def exSettingsImmediate : Settings :=
  { exSettingsBuffered with REQUEST_BUFFER_SIZE := 0 }

/-- A state whose shared cache holds one record under the configured prefix. -/
def exStCache : St :=
  { buffer := [], cacheMap := [("request:1", exRecA)], store := [], attempts := [] }

/-- Dropping the matching entries and then selecting them yields nothing. -/
theorem filter_keyMatches_cleared (pat : String) (l : List (String × Request)) :
    (l.filter (fun p => !keyMatches pat p.1)).filter (fun p => keyMatches pat p.1) = [] := by
  induction l with
  | nil => rfl
  | cons a l ih =>
    by_cases h : keyMatches pat a.1 <;> simp [List.filter_cons, h, ih]

theorem create_cached (s : Settings) (ok : Bool) (uid : Nat) (st : St)
    (r : Request) (h : s.REQUEST_USE_CACHE = true) :
    create_from_http_request s ok uid true st r =
      .ok { st with cacheMap := cacheSet st.cacheMap (request_cache_key s uid) r } := by
  simp [create_from_http_request, h]

/-- C2 (counterexample): under the Cached strategy with one cached record and a
failing bulk insert, `persist_cached` propagates the exception (`.error`), and
the state it leaves behind still holds the matching cache key — the keys are
not deleted, contradicting the claim on this input. -/
theorem persist_cached_failure_cex :
    persist_cached exSettingsCache false exStCache none =
      .error { exStCache with attempts := [[exRecA]] } ∧
    ({ exStCache with attempts := [[exRecA]] } : St).cacheMap =
      [("request:1", exRecA)] := by
  exact ⟨rfl, rfl⟩

/-- C2 (amended): under the Cached strategy, when the bulk insert succeeds (or
there was nothing to insert) `persist_cached` returns normally, all cache keys
matching the pattern are deleted, and the returned records are exactly the
batch appended to the store; when the bulk insert fails, the exception
propagates to the caller and both the cache and the store are left unchanged. -/
theorem persist_cached_amended (s : Settings) (ok : Bool) (st : St)
    (pat : Option String) (h : s.REQUEST_USE_CACHE = true) :
    (∀ st1 out, persist_cached s ok st pat = .ok (st1, out) →
       st1.cacheMap = st.cacheMap.filter
         (fun p => !keyMatches (pat.getD s.REQUEST_CACHE_PREFIX) p.1) ∧
       st1.store = st.store ++ out ∧ st1.buffer = st.buffer) ∧
    (∀ st1, persist_cached s ok st pat = .error st1 →
       st1.cacheMap = st.cacheMap ∧ st1.store = st.store) := by
  simp only [persist_cached, h, if_true]
  constructor
  · intro st1 out hok
    split at hok
    · rw [Except.ok.injEq, Prod.mk.injEq] at hok
      obtain ⟨h1, h2⟩ := hok
      subst h1; subst h2
      simp
    · split at hok
      · rw [Except.ok.injEq, Prod.mk.injEq] at hok
        obtain ⟨h1, h2⟩ := hok
        subst h1; subst h2
        simp
      · cases hok
  · intro st1 herr
    split at herr
    · cases herr
    · split at herr
      · cases herr
      · rw [Except.error.injEq] at herr
        subst herr
        simp

/-- Witness for C2 (amended) with the cache strategy on, one cached record and
a successful insert. -/
theorem persist_cached_amended_witness :
    (∀ st1 out, persist_cached exSettingsCache true exStCache none = .ok (st1, out) →
       st1.cacheMap = exStCache.cacheMap.filter
         (fun p => !keyMatches ((none : Option String).getD
             exSettingsCache.REQUEST_CACHE_PREFIX) p.1) ∧
       st1.store = exStCache.store ++ out ∧ st1.buffer = exStCache.buffer) ∧
    (∀ st1, persist_cached exSettingsCache true exStCache none = .error st1 →
       st1.cacheMap = exStCache.cacheMap ∧ st1.store = exStCache.store) :=
  persist_cached_amended exSettingsCache true exStCache none rfl

/-- C3 (counterexample): under the Immediate strategy (cache off, buffer size
0) a failing storage write makes `create_from_http_request` raise — the
exception from the unprotected `r.save()` propagates to the caller. -/
theorem immediate_submit_raises_cex :
    create_from_http_request exSettingsImmediate false 0 true exStEmpty exRecA =
      .error () := rfl

/-- C3 (amended): under the Cached strategy or the Buffered strategy, an
admitted submit call returns to the caller without raising, whatever the
outcome of the storage write; under the Immediate strategy a storage failure
propagates (see the counterexample). -/
theorem submit_no_raise_buffered_or_cached (s : Settings) (ok : Bool) (uid : Nat)
    (st : St) (r : Request)
    (h : s.REQUEST_USE_CACHE = true ∨ s.REQUEST_BUFFER_SIZE ≠ 0) :
    ∃ st', create_from_http_request s ok uid true st r = .ok st' := by
  by_cases hc : s.REQUEST_USE_CACHE
  · exact ⟨_, create_cached s ok uid st r hc⟩
  · have hc' : s.REQUEST_USE_CACHE = false := by simpa using hc
    have hsz : s.REQUEST_BUFFER_SIZE ≠ 0 := by
      rcases h with h | h
      · exact absurd h hc
      · exact h
    by_cases hover : s.REQUEST_BUFFER_SIZE < st.buffer.length + 1
    · exact ⟨_, create_buffered_flush s ok uid st r hc' hsz hover⟩
    · exact ⟨_, create_buffered_no_flush s ok uid st r hc' (by omega)⟩

/-- Witness for C3 (amended) under the Cached strategy with a failing storage
layer. -/
theorem submit_no_raise_witness :
    ∃ st', create_from_http_request exSettingsCache false 0 true exStEmpty exRecA =
      .ok st' :=
  submit_no_raise_buffered_or_cached exSettingsCache false 0 exStEmpty exRecA (Or.inl rfl)

/-- A Buffered-strategy configuration with every redaction setting turned on:
IP logging off (dummy `0.0.0.0`), anonymization on, user logging off. -/
def exSettingsBufferedPrivate : Settings :=
  { exSettingsBuffered with
      REQUEST_LOG_IP := false
      REQUEST_IP_DUMMY := "0.0.0.0"
      REQUEST_ANONYMOUS_IP := true
      REQUEST_LOG_USER := false }

/-- C4 (counterexample): with IP logging disabled, anonymization enabled and
user logging disabled, flushing the threshold-1 buffer persists both records
verbatim — the stored first record keeps its captured IP `203.0.113.42` and
its user reference, even though `save` would have redacted it to the dummy IP
and no user. -/
theorem buffered_flush_unredacted_cex :
    submitSeq exSettingsBufferedPrivate exStEmpty [(exRecA, true, 0), (exRecB, true, 1)] =
      .ok { buffer := [], cacheMap := [], store := [exRecA, exRecB],
            attempts := [[exRecA, exRecB]] } ∧
    exRecA.ip = "203.0.113.42" ∧ exRecA.user = some "alice" ∧
    save exSettingsBufferedPrivate exRecA =
      { exRecA with ip := "0.0.0.0", user := none } := by
  exact ⟨rfl, rfl, rfl, rfl⟩

/-- C4 (amended): every flush of the Buffered buffer hands `bulk_create` the
buffered records exactly as captured: the store receives `st.buffer ++ [r]`
itself, with no per-record IP or user redaction applied (the redaction in
`Request.save` runs only on the Immediate path, which `bulk_create`
bypasses). -/
theorem buffered_flush_no_redaction (s : Settings) (uid : Nat) (st : St)
    (r : Request) (hc : s.REQUEST_USE_CACHE = false)
    (hsz : s.REQUEST_BUFFER_SIZE ≠ 0)
    (hover : s.REQUEST_BUFFER_SIZE < st.buffer.length + 1) :
    create_from_http_request s true uid true st r =
      .ok { st with
              buffer := []
              attempts := st.attempts ++ [st.buffer ++ [r]]
              store := st.store ++ (st.buffer ++ [r]) } := by
  rw [create_buffered_flush s true uid st r hc hsz hover]
  simp

/-- Witness for C4 (amended): a concrete overfull buffer is flushed verbatim. -/
theorem buffered_flush_no_redaction_witness :
    create_from_http_request exSettingsBufferedPrivate true 0 true
        { exStEmpty with buffer := [exRecB] } exRecA =
      .ok { ({ exStEmpty with buffer := [exRecB] } : St) with
              buffer := []
              attempts := ({ exStEmpty with buffer := [exRecB] } : St).attempts ++
                [({ exStEmpty with buffer := [exRecB] } : St).buffer ++ [exRecA]]
              store := ({ exStEmpty with buffer := [exRecB] } : St).store ++
                (({ exStEmpty with buffer := [exRecB] } : St).buffer ++ [exRecA]) } :=
  buffered_flush_no_redaction exSettingsBufferedPrivate 0
    { exStEmpty with buffer := [exRecB] } exRecA rfl (by decide) (by decide)

/-- C6: under the Cached strategy, every admitted submit writes the record into
the shared cache under the derived key and returns without raising; the
buffer, the permanent store and the bulk-insert log are all untouched — and
this holds for every value of the buffer-size setting, since `s` is
arbitrary. -/
theorem cached_submit_frame (s : Settings) (ok : Bool) (uid : Nat) (st : St)
    (r : Request) (h : s.REQUEST_USE_CACHE = true) :
    create_from_http_request s ok uid true st r =
      .ok { st with cacheMap := cacheSet st.cacheMap (request_cache_key s uid) r } :=
  create_cached s ok uid st r h

/-- Witness for C6 on a concrete cached configuration and record. -/
theorem cached_submit_frame_witness :
    create_from_http_request exSettingsCache true 5 true exStEmpty exRecA =
      .ok { exStEmpty with
              cacheMap := cacheSet exStEmpty.cacheMap
                (request_cache_key exSettingsCache 5) exRecA } :=
  cached_submit_frame exSettingsCache true 5 exStEmpty exRecA rfl

/-- C8 (counterexample): with one cached record, a first `flush_cache` whose
bulk insert fails raises and leaves the key in the cache; the immediately
following second `flush_cache` (same default pattern, no intervening submit)
then returns that record again — a non-empty collection, contradicting the
idempotent-drain claim on this input. -/
theorem flush_twice_nonempty_cex :
    persist_cached exSettingsCache false exStCache none =
      .error { exStCache with attempts := [[exRecA]] } ∧
    persist_cached exSettingsCache true { exStCache with attempts := [[exRecA]] } none =
      .ok ({ buffer := [], cacheMap := [], store := [exRecA],
             attempts := [[exRecA], [exRecA]] }, [exRecA]) ∧
    ([exRecA] : List Request).isEmpty = false := by
  exact ⟨rfl, rfl, rfl⟩

/-- C8 (amended): whenever a `flush_cache` call completes without raising, an
immediately following `flush_cache` with the same pattern and no intervening
submit returns an empty collection — the drain is idempotent provided the
first call's bulk insert did not fail. -/
theorem flush_idempotent_after_success (s : Settings) (ok1 ok2 : Bool)
    (st st1 : St) (pat : Option String) (out1 : List Request)
    (h : persist_cached s ok1 st pat = .ok (st1, out1)) :
    ∃ st2, persist_cached s ok2 st1 pat = .ok (st2, []) := by
  by_cases hc : s.REQUEST_USE_CACHE
  · have hcm : st1.cacheMap = st.cacheMap.filter
        (fun p => !keyMatches (pat.getD s.REQUEST_CACHE_PREFIX) p.1) := by
      simp only [persist_cached, hc, if_true] at h
      split at h
      · rw [Except.ok.injEq, Prod.mk.injEq] at h
        obtain ⟨h1, h2⟩ := h
        subst h1
        rfl
      · split at h
        · rw [Except.ok.injEq, Prod.mk.injEq] at h
          obtain ⟨h1, h2⟩ := h
          subst h1
          rfl
        · cases h
    simp only [persist_cached, hc, if_true, hcm, filter_keyMatches_cleared]
    simp
  · have hc' : s.REQUEST_USE_CACHE = false := by simpa using hc
    simp only [persist_cached, hc', Bool.false_eq_true, if_false] at h
    rw [Except.ok.injEq, Prod.mk.injEq] at h
    obtain ⟨h1, h2⟩ := h
    subst h1
    exact ⟨st, by simp [persist_cached, hc']⟩

/-- Witness for C8 (amended): after a concrete successful flush, the second
flush returns the empty collection. -/
theorem flush_idempotent_witness :
    ∃ st2, persist_cached exSettingsCache true
        { buffer := [], cacheMap := [], store := [exRecA], attempts := [[exRecA]] } none =
      .ok (st2, []) :=
  flush_idempotent_after_success exSettingsCache true true exStCache
    { buffer := [], cacheMap := [], store := [exRecA], attempts := [[exRecA]] }
    none [exRecA] rfl

/-- C5: `process_response` is exactly the ordered admission cascade: when any
of the six rejection rules fires, the state is returned unchanged — nothing is
persisted, appended to the buffer or written to the cache — and an exchange
passing all six rules reaches `create_from_http_request` with the record built
from it; moreover the cascade equals the conjunction of the six
pass-conditions (method allowed; not errors-only-with-status-below-400; path
not excluded; not ignored AJAX; remote IP not ignored; username not
ignored). -/
theorem admission_gates_submit (s : Settings) (excluded : String → Bool)
    (now : Int) (uid : Nat) (ok : Bool) (st : St) (ex : Exchange) :
    process_response s excluded now uid ok st ex =
      (if admission s excluded ex
       then create_from_http_request s ok uid true st (from_http_request now ex)
       else .ok st) ∧
    admission s excluded ex =
      (s.REQUEST_VALID_METHOD_NAMES.contains ex.method.toLower &&
       !(decide (ex.status_code < 400) && s.REQUEST_ONLY_ERRORS) &&
       !excluded ex.path &&
       !(ex.is_ajax && s.REQUEST_IGNORE_AJAX) &&
       !(ex.remote_addr.any fun a => s.REQUEST_IGNORE_IP.contains a) &&
       !(ex.user.any fun u => s.REQUEST_IGNORE_USERNAME.contains u)) := by
  unfold process_response admission
  refine ⟨?_, ?_⟩ <;>
  · by_cases h1 : ex.method.toLower ∈ s.REQUEST_VALID_METHOD_NAMES <;>
    by_cases h2 : ex.status_code < 400 <;>
    by_cases h2b : s.REQUEST_ONLY_ERRORS = true <;>
    by_cases h3 : excluded ex.path = true <;>
    by_cases h4 : ex.is_ajax = true <;>
    by_cases h4b : s.REQUEST_IGNORE_AJAX = true <;>
    by_cases h5 : Option.any (fun a => decide (a ∈ s.REQUEST_IGNORE_IP)) ex.remote_addr = true <;>
    by_cases h6 : Option.any (fun u => decide (u ∈ s.REQUEST_IGNORE_USERNAME)) ex.user = true <;>
    simp [h1, h2, h2b, h3, h4, h4b, h5, h6]

/-- Pieces produced by `splitOnP p` contain no element satisfying `p`. -/
theorem splitOnP_sep_free {α : Type} (p : α → Bool) (l : List α) :
    ∀ piece ∈ l.splitOnP p, ∀ y ∈ piece, p y = false := by
  induction l with
  | nil =>
    intro piece hp y hy
    rw [List.splitOnP_nil, List.mem_singleton] at hp
    subst hp
    simp at hy
  | cons a l ih =>
    intro piece hp y hy
    rw [List.splitOnP_cons] at hp
    by_cases ha : p a = true
    · rw [if_pos ha] at hp
      rcases List.mem_cons.mp hp with h | h
      · subst h; simp at hy
      · exact ih piece h y hy
    · rw [if_neg ha] at hp
      cases hsp : l.splitOnP p with
      | nil => exact absurd hsp (List.splitOnP_ne_nil p l)
      | cons hd tl =>
        rw [hsp, List.modifyHead_cons] at hp
        rcases List.mem_cons.mp hp with h | h
        · subst h
          rcases List.mem_cons.mp hy with h | h
          · subst h
            exact Bool.not_eq_true _ ▸ ha
          · exact ih hd (hsp ▸ List.mem_cons_self hd tl) y h
        · exact ih piece (hsp ▸ List.mem_cons.mpr (Or.inr h)) y hy

/-- Pieces of `pySplitDot` contain no dot. -/
theorem pySplitDot_sep_free (s : String) (t : String) (ht : t ∈ pySplitDot s) :
    Char.ofNat 46 ∉ t.toList := by
  unfold pySplitDot at ht
  rw [List.mem_map] at ht
  obtain ⟨piece, hpiece, rfl⟩ := ht
  rw [List.toList_asString]
  intro hmem
  have := splitOnP_sep_free (fun c => c == Char.ofNat 46) s.toList piece hpiece _ hmem
  simp at this

/-- `pySplitDot` is a left inverse of `pyJoinDot` on non-empty lists of
dot-free parts. -/
theorem pySplitDot_pyJoinDot (L : List String) (hL : L ≠ [])
    (hdot : ∀ t ∈ L, Char.ofNat 46 ∉ t.toList) :
    pySplitDot (pyJoinDot L) = L := by
  unfold pySplitDot pyJoinDot
  rw [List.toList_asString]
  have hx : ∀ l ∈ L.map String.toList, Char.ofNat 46 ∉ l := by
    intro l hl
    rw [List.mem_map] at hl
    obtain ⟨t, ht, rfl⟩ := hl
    exact hdot t ht
  have hls : L.map String.toList ≠ [] := by
    simp [hL]
  have hsplit := List.splitOn_intercalate (L.map String.toList) (Char.ofNat 46) hx hls
  have hdotchar : ('.' : Char) = Char.ofNat 46 := rfl
  rw [hdotchar, hsplit]
  have hcomp : (List.asString ∘ String.toList) = id := funext String.asString_toList
  rw [List.map_map, hcomp, List.map_id]

/-- The IP rewrite of `Request.save` is idempotent. -/
theorem redactIp_idem (s : Settings) (ip : String) :
    redactIp s (redactIp s ip) = redactIp s ip := by
  unfold redactIp
  by_cases hlog : s.REQUEST_LOG_IP = true
  · simp only [hlog, Bool.not_true, Bool.false_eq_true, if_false]
    by_cases hanon : s.REQUEST_ANONYMOUS_IP = true
    · simp only [hanon, if_true]
      rw [pySplitDot_pyJoinDot ((pySplitDot ip).dropLast ++ ["1"]) (by simp)]
      · rw [List.dropLast_concat]
      · intro t ht
        rcases List.mem_append.mp ht with h | h
        · exact pySplitDot_sep_free ip t (List.dropLast_subset _ h)
        · rw [List.mem_singleton] at h
          subst h
          decide
    · simp [hanon]
  · have hlog' : s.REQUEST_LOG_IP = false := by simpa using hlog
    simp [hlog']

/-- C7: at persistence time `save` rewrites the IP exactly as claimed: with IP
logging disabled the persisted IP is the configured dummy value, whatever the
anonymization setting (`s` is arbitrary); with IP logging on and anonymization
enabled, `203.0.113.42` is persisted as `203.0.113.1`; and the rewrite is
idempotent — saving an already-saved record changes nothing. -/
theorem save_ip_redaction (s : Settings) (r : Request) :
    (save { s with REQUEST_LOG_IP := false } r).ip = s.REQUEST_IP_DUMMY ∧
    (save { s with REQUEST_LOG_IP := true, REQUEST_ANONYMOUS_IP := true }
        { r with ip := "203.0.113.42" }).ip = "203.0.113.1" ∧
    save s (save s r) = save s r := by
  refine ⟨rfl, rfl, ?_⟩
  unfold save
  by_cases h : s.REQUEST_LOG_USER = true <;> simp [h, redactIp_idem]

/-- C9: for every unparseable (invalid) combination of period components, each
of the period filters `month`, `week` and `day` yields no results (`None`) and
raises nothing to the caller. -/
theorem invalid_period_fail_soft (parseM parseW parseD : String → Option PyDate)
    (y m d w : String)
    (hm : parseM (y ++ m) = none)
    (hw : parseW (y ++ "-0-" ++ w) = none)
    (hd : parseD (y ++ m ++ d) = none) :
    month parseM (some y) (some m) none = .ok none ∧
    week parseW y w = .ok none ∧
    day parseD (some y) (some m) (some d) none = .ok none := by
  refine ⟨?_, ?_, ?_⟩
  · simp only [month, hm]
  · simp only [week, hw]
  · simp only [day, hd]

/-- Witness for C9: a parser rejecting everything, applied to concrete
malformed components. -/
theorem invalid_period_fail_soft_witness :
    month (fun _ => none) (some "2021") (some "Foo") none = .ok none ∧
    week (fun _ => none) "2021" "99" = .ok none ∧
    day (fun _ => none) (some "2021") (some "Foo") (some "99") none = .ok none :=
  invalid_period_fail_soft (fun _ => none) (fun _ => none) (fun _ => none)
    "2021" "Foo" "99" "99" rfl rfl rfl

/-- C10: `active_users` considers no record whose user reference is null: the
null-user records are dropped before the time filter (removing them from the
stored set first changes nothing), and every returned user is non-null — for
every stored record set and every lookback window. -/
theorem active_users_nonnull (db : List Request) (now : Int) (options : Option Int) :
    (active_users db now options).all (fun u => u.isSome) = true ∧
    active_users db now options =
      active_users (db.filter (fun r => r.user.isSome)) now options := by
  constructor
  · rw [List.all_eq_true]
    intro u hu
    unfold active_users at hu
    rw [List.mem_dedup] at hu
    cases options with
    | none =>
      rw [List.mem_map] at hu
      obtain ⟨r, hr, rfl⟩ := hu
      exact (List.mem_filter.mp hr).2
    | some delta =>
      rw [List.mem_map] at hu
      obtain ⟨r, hr, rfl⟩ := hu
      exact (List.mem_filter.mp (List.mem_filter.mp hr).1).2
  · cases options <;> unfold active_users <;> simp [List.filter_filter]

end DjangoRequest
